import Mathlib

/-!
Shallow embedding of the eigenangi library (config resolution and the EC2
instance-type catalog client) and proofs about its specified behavior.

The environment, the dotenv file and the TOML `[aws]` section are modelled as
partial maps `String → Option String`.  The boto3 session constructor is an
external dependency and is modelled as an abstract function parameter.
-/

/-- Merged environment after `load_dotenv()` (python-dotenv with
`override=False`): a variable already present in the process environment is
kept, otherwise the value from the dotenv file (if any) is used. -/
def effEnv (procEnv doten : String → Option String) : String → Option String :=
  fun name =>
    match procEnv name with
    | some v => some v
    | none => doten name

/-- Python's `str.strip()`: remove leading and trailing whitespace. -/
def pyStrip (s : String) : String :=
  String.mk
    (((s.data.dropWhile Char.isWhitespace).reverse.dropWhile Char.isWhitespace).reverse)

/-- Embedding of `eigenangi.utils.getenv_str`: return the environment value if
it is present and its stripped form is non-empty, else the default. -/
def getenv_str (env : String → Option String) (name : String)
    (default : Option String) : Option String :=
  match env name with
  | some v => if pyStrip v = "" then default else some v
  | none => default

/-- The record returned by `resolved_aws_settings` (a dict with four AWS_*
keys whose values may be None). -/
structure ResolvedSettings where
  access_key : Option String
  secret_key : Option String
  session_token : Option String
  region : Option String
  deriving DecidableEq

/-- Embedding of `eigenangi.config.resolved_aws_settings`, parametrized by the
environment at resolution time (after `load_env_files()`) and by the TOML
`[aws]` section (already upper-cased, as `load_toml_config` returns it). -/
def resolved_aws_settings (env toml : String → Option String) :
    ResolvedSettings :=
  { access_key := getenv_str env "AWS_ACCESS_KEY_ID" (toml "AWS_ACCESS_KEY_ID")
    secret_key :=
      getenv_str env "AWS_SECRET_ACCESS_KEY" (toml "AWS_SECRET_ACCESS_KEY")
    session_token :=
      getenv_str env "AWS_SESSION_TOKEN" (toml "AWS_SESSION_TOKEN")
    region :=
      getenv_str env "AWS_DEFAULT_REGION"
        (getenv_str env "AWS_REGION" (toml "AWS_DEFAULT_REGION")) }

/-- `resolved_aws_settings` including the `load_env_files()` step: the process
environment is first merged (without override) with the dotenv file. -/
def resolvedFull (procEnv doten toml : String → Option String) :
    ResolvedSettings :=
  resolved_aws_settings (effEnv procEnv doten) toml

/-- An environment variable counts as unset when it is absent or its trimmed
value is empty. -/
def envBlank (env : String → Option String) (name : String) : Bool :=
  match env name with
  | some v => pyStrip v == ""
  | none => true

/-- Raw `VCpuInfo` sub-dict of a describe-instance-types record. -/
structure VCpuInfoR where
  defaultVCpus : Option Int
  deriving DecidableEq

/-- Raw `MemoryInfo` sub-dict. -/
structure MemoryInfoR where
  sizeInMiB : Option Int
  deriving DecidableEq

/-- Raw `ProcessorInfo` sub-dict. -/
structure ProcessorInfoR where
  supportedArchitectures : Option (List String)
  deriving DecidableEq

/-- Raw `NetworkInfo` sub-dict. -/
structure NetworkInfoR where
  networkPerformance : Option String
  enaSupport : Option String
  deriving DecidableEq

/-- One raw provider record as consumed by `InstanceTypeInfo.from_aws`; every
field the code reads with `.get` is optional. -/
structure RawRecord where
  instanceType : Option String := none
  vCpuInfo : Option VCpuInfoR := none
  memoryInfo : Option MemoryInfoR := none
  processorInfo : Option ProcessorInfoR := none
  networkInfo : Option NetworkInfoR := none
  burstablePerformanceSupported : Option Bool := none
  deriving DecidableEq

/-- The normalized machine-type record (`@dataclass InstanceTypeInfo`). -/
structure InstanceTypeInfo where
  instance_type : String
  vcpu : Int
  memory_mib : Int
  family : Option String := none
  arch : Option (List String) := none
  network_performance : Option String := none
  supports_ena : Option Bool := none
  burstable : Option Bool := none
  deriving DecidableEq

/-- Characters of `it.split(".")[0]`: everything before the first dot. -/
def takeBeforeDot : List Char → List Char
  | [] => []
  | c :: cs => if c = '.' then [] else c :: takeBeforeDot cs

/-- Embedding of `it.split(".")[0] if "." in it else None`. -/
def famOf (it : String) : Option String :=
  if it.data.contains '.' then some (String.mk (takeBeforeDot it.data))
  else none

/-- Embedding of `InstanceTypeInfo.from_aws`: normalize one raw provider
record, defaulting every missing field. -/
def InstanceTypeInfo.from_aws (d : RawRecord) : InstanceTypeInfo :=
  let it := d.instanceType.getD ""
  let netInfo := d.networkInfo.getD { networkPerformance := none, enaSupport := none }
  { instance_type := it
    vcpu := ((d.vCpuInfo.getD { defaultVCpus := none }).defaultVCpus).getD 0
    memory_mib := ((d.memoryInfo.getD { sizeInMiB := none }).sizeInMiB).getD 0
    family := famOf it
    arch := (d.processorInfo.getD { supportedArchitectures := none }).supportedArchitectures
    network_performance := netInfo.networkPerformance
    supports_ena :=
      some (netInfo.enaSupport == some "required" || netInfo.enaSupport == some "supported")
    burstable := some (d.burstablePerformanceSupported.getD false) }

/-- Python truthiness of the optional `families` iterable: `None` and the
empty collection are falsy. -/
def familiesTruthy : Option (List String) → Bool
  | none => false
  | some fs => !fs.isEmpty

/-- The client-side filter body of `list_machine_types`: a record is appended
to `out` exactly when none of the `continue` branches fires. -/
def passes (families : Option (List String)) (burstable_only : Option Bool)
    (info : InstanceTypeInfo) : Bool :=
  (if familiesTruthy families then
      (families.getD []).contains (info.family.getD "")
    else true)
  && !(burstable_only == some true && !(info.burstable.getD false))
  && !(burstable_only == some false && info.burstable.getD false)

/-- Python's `l[:n]` for an integer `n`: a non-negative bound takes a prefix,
a negative bound drops `-n` elements from the end. -/
def pySliceTo {α : Type} (l : List α) (n : Int) : List α :=
  if 0 ≤ n then l.take n.toNat else l.take (l.length - (-n).toNat)

/-- Embedding of the post-fetch pipeline of `EC2Client.list_machine_types`:
normalize each arriving raw record, apply the family and burstable filters,
then truncate with `out[:max_results]`.  `records` is the concatenation of all
pages in arrival order. -/
def list_machine_types (records : List RawRecord)
    (families : Option (List String)) (burstable_only : Option Bool)
    (max_results : Int) : List InstanceTypeInfo :=
  pySliceTo
    ((records.map InstanceTypeInfo.from_aws).filter (passes families burstable_only))
    max_results

/-- The provider-SDK failures distinguished by `list_machine_types`. -/
inductive AwsError where
  | noCredentials
  | clientError (code : String)
  | botoCore (msg : String)
  deriving DecidableEq

/-- The library's user-facing failure kinds, plus the unclassified escape
hatch (`raise` re-raising the original provider error). -/
inductive EigExc where
  | credentialsNotFound (msg : String)
  | permissionDenied (msg : String)
  | serviceUnavailable (msg : String)
  | unclassified (e : AwsError)
  deriving DecidableEq

/-- Embedding of the `except` clauses of `EC2Client.list_machine_types`. -/
def classifyListError : AwsError → EigExc
  | .noCredentials =>
      .credentialsNotFound
        "AWS credentials not found. Set env vars, ~/.aws/credentials, or an IAM role."
  | .clientError code =>
      if code = "AccessDenied" ∨ code = "UnauthorizedOperation" then
        .permissionDenied ("Access denied for DescribeInstanceTypes: " ++ code)
      else if code = "Throttling" ∨ code = "RequestLimitExceeded" ∨
          code = "ServiceUnavailable" then
        .serviceUnavailable ("EC2 service throttled/unavailable: " ++ code)
      else .unclassified (.clientError code)
  | .botoCore msg => .serviceUnavailable ("Boto core error: " ++ msg)

/-- `list_machine_types` including the fetch outcome: the paginated fetch
either yields the raw records of all pages or fails with a provider error,
which the `except` clauses classify. -/
def list_machine_types_run (fetch : Except AwsError (List RawRecord))
    (families : Option (List String)) (burstable_only : Option Bool)
    (max_results : Int) : Except EigExc (List InstanceTypeInfo) :=
  match fetch with
  | .ok records => .ok (list_machine_types records families burstable_only max_results)
  | .error e => .error (classifyListError e)

/-- A boto3 session, reduced to the one attribute `EC2Client.__init__`
reads back: `session.region_name`. -/
structure BotoSession where
  region_name : Option String
  deriving DecidableEq

/-- The keyword arguments `EC2Client.__init__` passes to
`boto3.session.Session`. -/
structure SessionArgs where
  aws_access_key_id : Option String
  aws_secret_access_key : Option String
  aws_session_token : Option String
  region_name : Option String
  deriving DecidableEq

/-- Python's `a or b` on optional strings: `None` and `""` are falsy. -/
def pyOrStr (a b : Option String) : Option String :=
  match a with
  | some s => if s = "" then b else some s
  | none => b

/-- Python's `a or None` on an optional string. -/
def pyOrNone (a : Option String) : Option String :=
  match a with
  | some s => if s = "" then none else some s
  | none => none

/-- The `Session(...)` arguments built by `EC2Client.__init__` from the
resolved settings and the `region_name` parameter:
`region = region_name or cfg.get("AWS_DEFAULT_REGION")`, each credential is
passed as `cfg.get(...) or None`, and the region as `region or None`. -/
def mkSessionArgs (cfg : ResolvedSettings) (region_name : Option String) :
    SessionArgs :=
  { aws_access_key_id := pyOrNone cfg.access_key
    aws_secret_access_key := pyOrNone cfg.secret_key
    aws_session_token := pyOrNone cfg.session_token
    region_name := pyOrNone (pyOrStr region_name cfg.region) }

/-- Embedding of `EC2Client.__init__`, parametrized by the boto3 session
constructor `ctor` (an external dependency: it may fail, and it resolves the
session's region).  On success the client retains the session and the
non-empty region string; session-construction failure and a missing/empty
`session.region_name` both raise `CredentialsNotFound`. -/
def EC2Client.init (ctor : SessionArgs → Except String BotoSession)
    (cfg : ResolvedSettings) (region_name : Option String) :
    Except EigExc (BotoSession × String) :=
  match ctor (mkSessionArgs cfg region_name) with
  | .error e => .error (.credentialsNotFound e)
  | .ok s =>
      match s.region_name with
      | none =>
          .error (.credentialsNotFound
            "AWS region not resolved. Set AWS_DEFAULT_REGION or configure your AWS profile.")
      | some r =>
          if r = "" then
            .error (.credentialsNotFound
              "AWS region not resolved. Set AWS_DEFAULT_REGION or configure your AWS profile.")
          else .ok (s, r)

/-- The effective region in the spec's words: `regionOverride` if provided and
non-empty, else the resolved region (when non-empty), else the session's own
default. -/
def effectiveRegion (cfg : ResolvedSettings) (override : Option String)
    (s : BotoSession) : Option String :=
  match pyOrStr override cfg.region with
  | some r => if r = "" then s.region_name else some r
  | none => s.region_name

/-- Sample environment: access key set to a blank string. -/
def envA : String → Option String :=
  fun n => if n = "AWS_ACCESS_KEY_ID" then some " " else none

/-- Sample environment: only `AWS_REGION` set. -/
def envRegion : String → Option String :=
  fun n => if n = "AWS_REGION" then some "us-west-2" else none

/-- Sample empty environment / dotenv file / TOML section. -/
def envNone : String → Option String := fun _ => none

/-- Sample TOML section: access key set to `ABC`. -/
def tomlA : String → Option String :=
  fun n => if n = "AWS_ACCESS_KEY_ID" then some "ABC" else none

/-- Sample raw provider records. -/
def rawAB : RawRecord := { instanceType := some "a.b" }

/-- Second sample raw record. -/
def rawCD : RawRecord := { instanceType := some "c.d" }

/-- Sample raw record whose identifier has no dot. -/
def rawNoDot : RawRecord := { instanceType := some "nodot" }

/-- Sample raw record with identifier `t4g.medium`. -/
def rawT4g : RawRecord := { instanceType := some "t4g.medium" }

/-- Sample raw record with every optional field absent. -/
def rawEmptyRec : RawRecord := {}

/-- Sample boto3 session constructor that resolves the region to exactly the
region argument it was given (its own default chain resolves nothing). -/
def sessionEcho : SessionArgs → Except String BotoSession :=
  fun a => .ok { region_name := a.region_name }

/-- Sample resolved settings with nothing set. -/
def cfgNone : ResolvedSettings :=
  { access_key := none, secret_key := none, session_token := none, region := none }

/-- `getenv_str` returns the environment value whenever it is present with a
non-blank stripped form. -/
theorem getenv_str_of_set (env : String → Option String) (name v : String)
    (d : Option String) (h : env name = some v) (hv : pyStrip v ≠ "") :
    getenv_str env name d = some v := by
  simp [getenv_str, h, hv]

/-- `getenv_str` falls back to the default whenever the variable is absent or
blank. -/
theorem getenv_str_of_blank (env : String → Option String) (name : String)
    (d : Option String) (h : envBlank env name = true) :
    getenv_str env name d = d := by
  unfold envBlank at h
  unfold getenv_str
  cases henv : env name with
  | none => rfl
  | some v =>
      rw [henv] at h
      simp only [beq_iff_eq] at h
      simp [h]

/-- C1: for each settings field, an environment variable (at resolution time,
after the dotenv file has been merged without override) whose stripped value
is non-empty wins; an absent or blank variable falls through to the TOML
value (for the region, through the secondary variable first), which may
itself be absent (`none`). -/
theorem C1_config_precedence (procEnv doten toml : String → Option String) :
    (∀ v, effEnv procEnv doten "AWS_ACCESS_KEY_ID" = some v → pyStrip v ≠ "" →
      (resolvedFull procEnv doten toml).access_key = some v) ∧
    (envBlank (effEnv procEnv doten) "AWS_ACCESS_KEY_ID" = true →
      (resolvedFull procEnv doten toml).access_key = toml "AWS_ACCESS_KEY_ID") ∧
    (∀ v, effEnv procEnv doten "AWS_SECRET_ACCESS_KEY" = some v → pyStrip v ≠ "" →
      (resolvedFull procEnv doten toml).secret_key = some v) ∧
    (envBlank (effEnv procEnv doten) "AWS_SECRET_ACCESS_KEY" = true →
      (resolvedFull procEnv doten toml).secret_key = toml "AWS_SECRET_ACCESS_KEY") ∧
    (∀ v, effEnv procEnv doten "AWS_SESSION_TOKEN" = some v → pyStrip v ≠ "" →
      (resolvedFull procEnv doten toml).session_token = some v) ∧
    (envBlank (effEnv procEnv doten) "AWS_SESSION_TOKEN" = true →
      (resolvedFull procEnv doten toml).session_token = toml "AWS_SESSION_TOKEN") ∧
    (∀ v, effEnv procEnv doten "AWS_DEFAULT_REGION" = some v → pyStrip v ≠ "" →
      (resolvedFull procEnv doten toml).region = some v) ∧
    (envBlank (effEnv procEnv doten) "AWS_DEFAULT_REGION" = true →
      ∀ v, effEnv procEnv doten "AWS_REGION" = some v → pyStrip v ≠ "" →
        (resolvedFull procEnv doten toml).region = some v) ∧
    (envBlank (effEnv procEnv doten) "AWS_DEFAULT_REGION" = true →
      envBlank (effEnv procEnv doten) "AWS_REGION" = true →
        (resolvedFull procEnv doten toml).region = toml "AWS_DEFAULT_REGION") := by
  refine ⟨?_, ?_, ?_, ?_, ?_, ?_, ?_, ?_, ?_⟩
  · intro v h hv
    exact getenv_str_of_set _ _ _ _ h hv
  · intro h
    exact getenv_str_of_blank _ _ _ h
  · intro v h hv
    exact getenv_str_of_set _ _ _ _ h hv
  · intro h
    exact getenv_str_of_blank _ _ _ h
  · intro v h hv
    exact getenv_str_of_set _ _ _ _ h hv
  · intro h
    exact getenv_str_of_blank _ _ _ h
  · intro v h hv
    exact getenv_str_of_set _ _ _ _ h hv
  · intro h1 v h hv
    show getenv_str _ "AWS_DEFAULT_REGION" _ = some v
    rw [getenv_str_of_blank _ _ _ h1]
    exact getenv_str_of_set _ _ _ _ h hv
  · intro h1 h2
    show getenv_str _ "AWS_DEFAULT_REGION" _ = toml "AWS_DEFAULT_REGION"
    rw [getenv_str_of_blank _ _ _ h1]
    exact getenv_str_of_blank _ _ _ h2

/-- C1 witness: an access key set to the blank string `" "` loses to the TOML
value `ABC`. -/
theorem C1_config_precedence_witness :
    (resolvedFull envA envNone tomlA).access_key = some "ABC" := by
  have h := (C1_config_precedence envA envNone tomlA).2.1 (by decide)
  rw [h]
  rfl

/-- C8: the resolved region follows the chain primary variable
`AWS_DEFAULT_REGION` (when non-blank), then secondary variable `AWS_REGION`
(when non-blank), then the TOML region value, which may itself be absent. -/
theorem C8_region_chain (procEnv doten toml : String → Option String) :
    (∀ v, effEnv procEnv doten "AWS_DEFAULT_REGION" = some v → pyStrip v ≠ "" →
      (resolvedFull procEnv doten toml).region = some v) ∧
    (envBlank (effEnv procEnv doten) "AWS_DEFAULT_REGION" = true →
      ∀ v, effEnv procEnv doten "AWS_REGION" = some v → pyStrip v ≠ "" →
        (resolvedFull procEnv doten toml).region = some v) ∧
    (envBlank (effEnv procEnv doten) "AWS_DEFAULT_REGION" = true →
      envBlank (effEnv procEnv doten) "AWS_REGION" = true →
        (resolvedFull procEnv doten toml).region = toml "AWS_DEFAULT_REGION") := by
  refine ⟨?_, ?_, ?_⟩
  · intro v h hv
    exact getenv_str_of_set _ _ _ _ h hv
  · intro h1 v h hv
    show getenv_str _ "AWS_DEFAULT_REGION" _ = some v
    rw [getenv_str_of_blank _ _ _ h1]
    exact getenv_str_of_set _ _ _ _ h hv
  · intro h1 h2
    show getenv_str _ "AWS_DEFAULT_REGION" _ = toml "AWS_DEFAULT_REGION"
    rw [getenv_str_of_blank _ _ _ h1]
    exact getenv_str_of_blank _ _ _ h2

/-- C8 witness: with only `AWS_REGION=us-west-2` set and no TOML region, the
resolved region is `us-west-2`. -/
theorem C8_region_chain_witness :
    (resolvedFull envRegion envNone envNone).region = some "us-west-2" :=
  (C8_region_chain envRegion envNone envNone).2.1 (by decide) "us-west-2"
    (by decide) (by decide)

/-- C2: during a `list_machine_types` query, a provider client error with
code `AccessDenied` or `UnauthorizedOperation` raises `PermissionDenied`;
code `Throttling`, `RequestLimitExceeded` or `ServiceUnavailable` raises
`ServiceUnavailable`, as does any generic botocore error; a client error with
any other code is re-raised unmodified. -/
theorem C2_error_mapping (code : String) :
    ((code = "AccessDenied" ∨ code = "UnauthorizedOperation") →
      ∀ fams bo max, list_machine_types_run (.error (.clientError code)) fams bo max =
        .error (.permissionDenied ("Access denied for DescribeInstanceTypes: " ++ code))) ∧
    ((code = "Throttling" ∨ code = "RequestLimitExceeded" ∨ code = "ServiceUnavailable") →
      ∀ fams bo max, list_machine_types_run (.error (.clientError code)) fams bo max =
        .error (.serviceUnavailable ("EC2 service throttled/unavailable: " ++ code))) ∧
    (∀ msg fams bo max, list_machine_types_run (.error (.botoCore msg)) fams bo max =
      .error (.serviceUnavailable ("Boto core error: " ++ msg))) ∧
    (code ≠ "AccessDenied" → code ≠ "UnauthorizedOperation" → code ≠ "Throttling" →
      code ≠ "RequestLimitExceeded" → code ≠ "ServiceUnavailable" →
      ∀ fams bo max, list_machine_types_run (.error (.clientError code)) fams bo max =
        .error (.unclassified (.clientError code))) := by
  refine ⟨?_, ?_, ?_, ?_⟩
  · intro h fams bo max
    simp [list_machine_types_run, classifyListError, h]
  · intro h fams bo max
    have hno : ¬ (code = "AccessDenied" ∨ code = "UnauthorizedOperation") := by
      rcases h with rfl | rfl | rfl <;> simp
    simp [list_machine_types_run, classifyListError, hno, h]
  · intro msg fams bo max
    simp [list_machine_types_run, classifyListError]
  · intro h1 h2 h3 h4 h5 fams bo max
    simp [list_machine_types_run, classifyListError, h1, h2, h3, h4, h5]

/-- C2 witness: the mapping evaluated at one code of each kind. -/
theorem C2_error_mapping_witness :
    list_machine_types_run (.error (.clientError "AccessDenied")) none none 1000 =
      .error (.permissionDenied "Access denied for DescribeInstanceTypes: AccessDenied") ∧
    list_machine_types_run (.error (.clientError "Throttling")) none none 1000 =
      .error (.serviceUnavailable "EC2 service throttled/unavailable: Throttling") ∧
    list_machine_types_run (.error (.botoCore "Could not connect")) none none 1000 =
      .error (.serviceUnavailable "Boto core error: Could not connect") ∧
    list_machine_types_run (.error (.clientError "DryRunOperation")) none none 1000 =
      .error (.unclassified (.clientError "DryRunOperation")) :=
  ⟨(C2_error_mapping "AccessDenied").1 (Or.inl rfl) none none 1000,
   (C2_error_mapping "Throttling").2.1 (Or.inl rfl) none none 1000,
   (C2_error_mapping "Throttling").2.2.1 "Could not connect" none none 1000,
   (C2_error_mapping "DryRunOperation").2.2.2 (by decide) (by decide) (by decide)
     (by decide) (by decide) none none 1000⟩

/-- C10: passing an empty families collection applies no family filtering:
the result is identical to passing `None`. -/
theorem C10_empty_families (records : List RawRecord) (bo : Option Bool)
    (max : Int) :
    list_machine_types records (some []) bo max =
      list_machine_types records none bo max := rfl

/-- The burstable flag of every normalized record is explicitly set, to the
raw boolean defaulted to false. -/
theorem from_aws_burstable (d : RawRecord) :
    (InstanceTypeInfo.from_aws d).burstable =
      some (d.burstablePerformanceSupported.getD false) := rfl

/-- C4: on normalized records, the burstable filter is a pure predicate:
`burstable_only = some true` keeps exactly the records with burstable flag
true, `some false` keeps exactly those with the flag false, and `none` keeps
every record. -/
theorem C4_burstable_filter (raws : List RawRecord) :
    ((raws.map InstanceTypeInfo.from_aws).filter (passes none (some true)) =
      (raws.map InstanceTypeInfo.from_aws).filter (fun i => i.burstable == some true)) ∧
    ((raws.map InstanceTypeInfo.from_aws).filter (passes none (some false)) =
      (raws.map InstanceTypeInfo.from_aws).filter (fun i => i.burstable == some false)) ∧
    ((raws.map InstanceTypeInfo.from_aws).filter (passes none none) =
      raws.map InstanceTypeInfo.from_aws) := by
  refine ⟨?_, ?_, ?_⟩
  · apply List.filter_congr
    intro x hx
    obtain ⟨d, _, rfl⟩ := List.mem_map.mp hx
    cases hb : d.burstablePerformanceSupported.getD false <;>
      simp [passes, InstanceTypeInfo.from_aws, hb, familiesTruthy]
  · apply List.filter_congr
    intro x hx
    obtain ⟨d, _, rfl⟩ := List.mem_map.mp hx
    cases hb : d.burstablePerformanceSupported.getD false <;>
      simp [passes, InstanceTypeInfo.from_aws, hb, familiesTruthy]
  · rw [List.filter_eq_self]
    intro x _
    rfl

/-- C3 counterexample: with `max_results = -1` (a Python slice from the end),
two filtered records yield one result, so the result is not the first
`min(max_results, count)` records and its length exceeds `max_results`. -/
theorem C3_counterexample :
    list_machine_types [rawAB, rawCD] none none (-1) =
      [InstanceTypeInfo.from_aws rawAB] ∧
    ¬ (((list_machine_types [rawAB, rawCD] none none (-1)).length : Int) ≤ -1) := by
  constructor
  · decide
  · decide

/-- C3 (amended to non-negative `max_results`): the result is the prefix of
the filtered sequence of length `min max_results (filtered count)`, so
truncation happens after all filtering, the length never exceeds
`max_results`, and arrival order is preserved with no re-sorting. -/
theorem C3_truncation (records : List RawRecord) (fams : Option (List String))
    (bo : Option Bool) (max_results : Int) (h : 0 ≤ max_results) :
    list_machine_types records fams bo max_results =
      ((records.map InstanceTypeInfo.from_aws).filter (passes fams bo)).take
        max_results.toNat ∧
    (list_machine_types records fams bo max_results).length =
      min max_results.toNat
        ((records.map InstanceTypeInfo.from_aws).filter (passes fams bo)).length ∧
    ((list_machine_types records fams bo max_results).length : Int) ≤ max_results := by
  have h1 : list_machine_types records fams bo max_results =
      ((records.map InstanceTypeInfo.from_aws).filter (passes fams bo)).take
        max_results.toNat := by
    unfold list_machine_types pySliceTo
    rw [if_pos h]
  refine ⟨h1, ?_, ?_⟩
  · rw [h1, List.length_take]
  · rw [h1, List.length_take]
    have h2 : min max_results.toNat
        ((records.map InstanceTypeInfo.from_aws).filter (passes fams bo)).length ≤
        max_results.toNat := Nat.min_le_left _ _
    omega

/-- C3 witness: the amended statement at `max_results = 1` over two records. -/
theorem C3_truncation_witness :
    list_machine_types [rawAB, rawCD] none none 1 =
      (([rawAB, rawCD].map InstanceTypeInfo.from_aws).filter (passes none none)).take
        (Int.toNat 1) ∧
    (list_machine_types [rawAB, rawCD] none none 1).length =
      min (Int.toNat 1)
        (([rawAB, rawCD].map InstanceTypeInfo.from_aws).filter (passes none none)).length ∧
    ((list_machine_types [rawAB, rawCD] none none 1).length : Int) ≤ 1 :=
  C3_truncation [rawAB, rawCD] none none 1 (by decide)

/-- C5 counterexample: with the non-empty families list `[""]`, the record
`nodot` is kept although its derived family is absent, hence equal to none of
the given family names. -/
theorem C5_counterexample :
    list_machine_types [rawNoDot] (some [""]) none 1000 =
      [InstanceTypeInfo.from_aws rawNoDot] ∧
    (InstanceTypeInfo.from_aws rawNoDot).family = none ∧
    (∀ f, f ∈ ([""] : List String) →
      (InstanceTypeInfo.from_aws rawNoDot).family ≠ some f) := by
  refine ⟨by decide, by decide, ?_⟩
  intro f hf
  rw [List.mem_singleton] at hf
  subst hf
  decide

/-- C5 (amended: a record with no derived family counts as family `""`): with
a non-empty families list, the pipeline keeps exactly the normalized records
whose derived family — an absent family taken as the empty string — is equal,
case-sensitively, to one of the given names; the comparison happens
client-side on the derived family after normalization. -/
theorem C5_family_filter (raws : List RawRecord) (fams : List String)
    (bo : Option Bool) (max : Int) (h : fams ≠ []) :
    list_machine_types raws (some fams) bo max =
      pySliceTo
        ((raws.map InstanceTypeInfo.from_aws).filter
          (fun i => decide ((i.family.getD "") ∈ fams) && passes none bo i))
        max := by
  unfold list_machine_types
  congr 1
  apply List.filter_congr
  intro x _
  have ht : familiesTruthy (some fams) = true := by
    simp [familiesTruthy, h]
  simp [passes, ht, familiesTruthy, List.contains, List.elem_eq_mem, Bool.and_assoc, h]

/-- C5 witness: the amended statement at a concrete input. -/
theorem C5_family_filter_witness :
    list_machine_types [rawAB, rawCD, rawNoDot] (some ["a"]) none 1000 =
      pySliceTo
        (([rawAB, rawCD, rawNoDot].map InstanceTypeInfo.from_aws).filter
          (fun i => decide ((i.family.getD "") ∈ ["a"]) && passes none none i))
        1000 :=
  C5_family_filter [rawAB, rawCD, rawNoDot] ["a"] none 1000 (by decide)

/-- C6: normalization is total and degrades missing fields to defaults: a
missing identifier becomes `""`, missing vCPU and memory counts become 0, ENA
support is true exactly when the raw ENA field is `required` or `supported`
(and false otherwise), and a missing burstable flag becomes false. -/
theorem C6_normalization_defaults (d : RawRecord) :
    (d.instanceType = none → (InstanceTypeInfo.from_aws d).instance_type = "") ∧
    ((d.vCpuInfo = none ∨ ∃ vi, d.vCpuInfo = some vi ∧ vi.defaultVCpus = none) →
      (InstanceTypeInfo.from_aws d).vcpu = 0) ∧
    ((d.memoryInfo = none ∨ ∃ mi, d.memoryInfo = some mi ∧ mi.sizeInMiB = none) →
      (InstanceTypeInfo.from_aws d).memory_mib = 0) ∧
    ((InstanceTypeInfo.from_aws d).supports_ena = some true ↔
      ((d.networkInfo.getD { networkPerformance := none, enaSupport := none }).enaSupport =
          some "required" ∨
        (d.networkInfo.getD { networkPerformance := none, enaSupport := none }).enaSupport =
          some "supported")) ∧
    ((InstanceTypeInfo.from_aws d).supports_ena = some false ↔
      ¬ ((d.networkInfo.getD { networkPerformance := none, enaSupport := none }).enaSupport =
          some "required" ∨
        (d.networkInfo.getD { networkPerformance := none, enaSupport := none }).enaSupport =
          some "supported")) ∧
    (d.burstablePerformanceSupported = none →
      (InstanceTypeInfo.from_aws d).burstable = some false) := by
  refine ⟨?_, ?_, ?_, ?_, ?_, ?_⟩
  · intro h
    simp [InstanceTypeInfo.from_aws, h]
  · intro h
    rcases h with h | ⟨vi, hvi, hd⟩
    · simp [InstanceTypeInfo.from_aws, h]
    · simp [InstanceTypeInfo.from_aws, hvi, hd]
  · intro h
    rcases h with h | ⟨mi, hmi, hd⟩
    · simp [InstanceTypeInfo.from_aws, h]
    · simp [InstanceTypeInfo.from_aws, hmi, hd]
  · simp [InstanceTypeInfo.from_aws]
  · simp [InstanceTypeInfo.from_aws]
  · intro h
    simp [InstanceTypeInfo.from_aws, h]

/-- C6 witness: the fully-empty raw record normalizes to all defaults. -/
theorem C6_normalization_defaults_witness :
    (InstanceTypeInfo.from_aws rawEmptyRec).instance_type = "" ∧
    (InstanceTypeInfo.from_aws rawEmptyRec).vcpu = 0 ∧
    (InstanceTypeInfo.from_aws rawEmptyRec).memory_mib = 0 ∧
    (InstanceTypeInfo.from_aws rawEmptyRec).supports_ena = some false ∧
    (InstanceTypeInfo.from_aws rawEmptyRec).burstable = some false := by
  obtain ⟨h1, h2, h3, _, h5, h6⟩ := C6_normalization_defaults rawEmptyRec
  exact ⟨h1 rfl, h2 (Or.inl rfl), h3 (Or.inl rfl), h5.mpr (by decide), h6 rfl⟩

/-- `takeBeforeDot` takes exactly the longest dot-free prefix. -/
theorem takeBeforeDot_eq_takeWhile (l : List Char) :
    takeBeforeDot l = l.takeWhile (fun c => c != '.') := by
  induction l with
  | nil => rfl
  | cons c cs ih =>
      by_cases hc : c = '.'
      · subst hc
        simp [takeBeforeDot, List.takeWhile_cons]
      · simp [takeBeforeDot, List.takeWhile_cons, hc, ih]

/-- A list containing a dot splits as its dot-free prefix, the first dot, and
a remainder. -/
theorem exists_dot_split (l : List Char) (h : l.contains '.' = true) :
    ∃ post, l = l.takeWhile (fun c => c != '.') ++ '.' :: post := by
  induction l with
  | nil => simp at h
  | cons c cs ih =>
      by_cases hc : c = '.'
      · subst hc
        exact ⟨cs, by simp [List.takeWhile_cons]⟩
      · have hcs : cs.contains '.' = true := by
          simp only [List.contains_cons] at h
          rcases Bool.or_eq_true_iff.mp h with h1 | h1
          · exact absurd (beq_iff_eq.mp h1).symm hc
          · exact h1
        obtain ⟨post, hp⟩ := ih hcs
        refine ⟨post, ?_⟩
        rw [List.takeWhile_cons]
        have : (c != '.') = true := by simp [hc]
        rw [if_pos this]
        rw [List.cons_append]
        rw [← hp]

/-- C7: the derived family of a normalized record is the substring of the
identifier before the first dot when the identifier contains a dot, and is
absent when it does not. -/
theorem C7_family_derivation (d : RawRecord) :
    ((d.instanceType.getD "").data.contains '.' = false →
      (InstanceTypeInfo.from_aws d).family = none) ∧
    ((d.instanceType.getD "").data.contains '.' = true →
      (InstanceTypeInfo.from_aws d).family =
        some (String.mk
          ((d.instanceType.getD "").data.takeWhile (fun c => c != '.'))) ∧
      ∃ post, (d.instanceType.getD "").data =
        ((d.instanceType.getD "").data.takeWhile (fun c => c != '.')) ++
          '.' :: post) := by
  constructor
  · intro h
    show famOf (d.instanceType.getD "") = none
    unfold famOf
    rw [h]
    rfl
  · intro h
    constructor
    · show famOf (d.instanceType.getD "") = _
      unfold famOf
      rw [h, if_pos rfl, takeBeforeDot_eq_takeWhile]
    · exact exists_dot_split _ h

/-- C7 witness: `t4g.medium` yields family `t4g`; a dot-free identifier
yields no family. -/
theorem C7_family_derivation_witness :
    (InstanceTypeInfo.from_aws rawT4g).family = some "t4g" ∧
    (InstanceTypeInfo.from_aws rawNoDot).family = none := by
  constructor
  · have h := ((C7_family_derivation rawT4g).2 (by decide)).1
    rw [h]
    decide
  · exact (C7_family_derivation rawNoDot).1 (by decide)

/-- Under the boto3 behavior that an explicitly passed region becomes the
region of the constructed session, the region the session reports equals the
effective region of the spec (override, else resolved region, else the
session's own default). -/
theorem session_region_eq_effective
    (ctor : SessionArgs → Except String BotoSession) (cfg : ResolvedSettings)
    (override : Option String) (s : BotoSession)
    (hboto : ∀ args s, ctor args = .ok s → (args.region_name).isSome = true →
      s.region_name = args.region_name)
    (hs : ctor (mkSessionArgs cfg override) = .ok s) :
    effectiveRegion cfg override s = s.region_name := by
  unfold effectiveRegion
  cases hpy : pyOrStr override cfg.region with
  | none => rfl
  | some r =>
      show (if r = "" then s.region_name else some r) = s.region_name
      by_cases hr : r = ""
      · rw [if_pos hr]
      · rw [if_neg hr]
        have hargs : (mkSessionArgs cfg override).region_name = some r := by
          simp [mkSessionArgs, hpy, pyOrNone, hr]
        have := hboto _ _ hs (by rw [hargs]; rfl)
        rw [this, hargs]

/-- C9: client construction fails with `CredentialsNotFound` when session
construction throws, and when the effective region is still absent or empty
after session construction; when the effective region is non-empty and
session construction succeeds, construction succeeds and retains the session
together with that region.  The hypothesis states the boto3 behavior that an
explicitly passed region is adopted by the session. -/
theorem C9_client_construction
    (ctor : SessionArgs → Except String BotoSession) (cfg : ResolvedSettings)
    (override : Option String)
    (hboto : ∀ args s, ctor args = .ok s → (args.region_name).isSome = true →
      s.region_name = args.region_name) :
    (∀ e, ctor (mkSessionArgs cfg override) = .error e →
      EC2Client.init ctor cfg override = .error (.credentialsNotFound e)) ∧
    (∀ s, ctor (mkSessionArgs cfg override) = .ok s →
      (effectiveRegion cfg override s = none ∨ effectiveRegion cfg override s = some "") →
      ∃ msg, EC2Client.init ctor cfg override = .error (.credentialsNotFound msg)) ∧
    (∀ s r, ctor (mkSessionArgs cfg override) = .ok s →
      effectiveRegion cfg override s = some r → r ≠ "" →
      EC2Client.init ctor cfg override = .ok (s, r)) := by
  refine ⟨?_, ?_, ?_⟩
  · intro e he
    simp [EC2Client.init, he]
  · intro s hs hempty
    rw [session_region_eq_effective ctor cfg override s hboto hs] at hempty
    rcases hempty with h | h
    · exact ⟨"AWS region not resolved. Set AWS_DEFAULT_REGION or configure your AWS profile.",
        by simp [EC2Client.init, hs, h]⟩
    · exact ⟨"AWS region not resolved. Set AWS_DEFAULT_REGION or configure your AWS profile.",
        by simp [EC2Client.init, hs, h]⟩
  · intro s r hs heff hr
    rw [session_region_eq_effective ctor cfg override s hboto hs] at heff
    simp [EC2Client.init, hs, heff, hr]

/-- C9 witness: with no resolved settings, a session constructor that adopts
the passed region, and the override `us-west-2`, construction succeeds and
retains the session and region. -/
theorem C9_client_construction_witness :
    EC2Client.init sessionEcho cfgNone (some "us-west-2") =
      .ok ({ region_name := some "us-west-2" }, "us-west-2") := by
  have hboto : ∀ args s, sessionEcho args = .ok s → (args.region_name).isSome = true →
      s.region_name = args.region_name := by
    intro args s h _
    cases h
    rfl
  exact (C9_client_construction sessionEcho cfgNone (some "us-west-2") hboto).2.2
    { region_name := some "us-west-2" } "us-west-2" rfl (by decide) (by decide)
